import Mathlib

/-!
Verification of the real-time connection gateway embedded in the
PharmacyDashboardPlus HTTP service (src/server/index.ts).

The development shallowly embeds:
* the result of JSON.parse on an inbound frame payload (an `Option Json`,
  where `none` stands for a payload on which JSON.parse throws);
* the message-dispatch handler registered with ws.on for message events
  (lines 152 to 162 of src/server/index.ts);
* the per-connection heartbeat state machine: the isAlive flag, the
  repeating 30 000 ms interval timer, the pong listener and the close and
  error handlers (lines 130 to 150);
* the process-level shutdown orchestration: the shutdown function, the
  signal handlers and the global error handlers (lines 196 to 228).

Machine behaviour that lives outside this repository (the ws library
WebSocketServer close operation) is modelled from the specification and is
marked as such in its doc comment.
-/

namespace PharmacyGateway

/-- A JSON value, as produced by a successful JSON.parse call. -/
inductive Json where
  | null
  | bool (b : Bool)
  | num (n : Int)
  | str (s : String)
  | arr (elems : List Json)
  | obj (fields : List (String × Json))

/-- Field lookup on a parsed JSON object. JSON.parse keeps the last
occurrence of a duplicated key, so the fold keeps the last binding. -/
def lookupLast (fields : List (String × Json)) (k : String) : Option Json :=
  fields.foldl (fun acc kv => if kv.1 == k then some kv.2 else acc) none

/-- Reading a property (data.type in the source) on a parsed JSON value,
with JavaScript semantics: a property access on null throws a TypeError
(modelled as an error result); on an object it returns the field value when
present and undefined (modelled as `none`) otherwise; on a number, string,
boolean or array it returns undefined. -/
def jsGetProp : Json → String → Except Unit (Option Json)
  | Json.null, _ => Except.error ()
  | Json.obj fs, k => Except.ok (lookupLast fs k)
  | _, _ => Except.ok none

/-- The strict-equality test data.type === "pong" from line 155: it holds
exactly when the property value is the JSON string "pong". -/
def isPongType : Option Json → Bool
  | some (Json.str s) => s == "pong"
  | _ => false

/-- The outbound acknowledgment frame JSON.stringify sends on line 156. -/
def ackJson : Json := Json.obj [("type", Json.str "ack")]

/-- The outbound error frame JSON.stringify sends on line 160. -/
def errorJson : Json :=
  Json.obj [("type", Json.str "error"), ("message", Json.str "Invalid message format")]

/-- The body of the ws.on message handler (src/server/index.ts lines
152 to 162), as a function from the JSON.parse outcome to the list of
outbound frames it sends. `none` is a payload on which JSON.parse throws;
the catch block also receives the TypeError raised by the data.type access
when the parsed value is null. -/
def dispatchMessage (parsed : Option Json) : List Json :=
  match parsed with
  | none => [errorJson]
  | some data =>
    match jsGetProp data "type" with
    | Except.error _ => [errorJson]
    | Except.ok v => if isPongType v then [ackJson] else []

/-- Unfolding lemma for `dispatchMessage` on a parseable payload. -/
theorem dispatchMessage_some (j : Json) :
    dispatchMessage (some j) =
      match jsGetProp j "type" with
      | Except.error _ => [errorJson]
      | Except.ok v => if isPongType v then [ackJson] else [] := rfl

/-- Per-connection state: the liveness flag, whether the heartbeat interval
timer is still armed, and whether the supervisor has called terminate on
the transport. -/
structure Conn where
  isAlive : Bool
  timerActive : Bool
  terminated : Bool
deriving DecidableEq

/-- Connection state right after the connection handler runs (line 130:
isAlive is set to true, the interval timer has just been started). -/
def connInit : Conn := { isAlive := true, timerActive := true, terminated := false }

/-- Externally visible effects a connection event can produce. -/
inductive Effect where
  | ping
  | terminate
  | send (frame : Json)

/-- Events delivered to one connection: a heartbeat interval tick, a
transport-level pong, the close event, the error event, and an inbound
frame (already passed through JSON.parse). -/
inductive CEvent where
  | tick
  | pongRecv
  | closeEvt
  | errorEvt
  | message (parsed : Option Json)

/-- One step of the per-connection event handlers of
src/server/index.ts lines 130 to 162:
* tick (lines 133 to 140): when isAlive is false, clear the interval and
  terminate the transport; otherwise clear the flag and send a ping;
* pong listener (line 131): set isAlive to true;
* close handler (lines 142 to 145) and error handler (lines 147 to 150):
  clear the interval;
* message handler (lines 152 to 162): send the frames computed by
  `dispatchMessage`, touching no other state. -/
def connStep (c : Conn) : CEvent → Conn × List Effect
  | CEvent.tick =>
      if c.isAlive then
        ({ c with isAlive := false }, [Effect.ping])
      else
        ({ c with timerActive := false, terminated := true }, [Effect.terminate])
  | CEvent.pongRecv => ({ c with isAlive := true }, [])
  | CEvent.closeEvt => ({ c with timerActive := false }, [])
  | CEvent.errorEvt => ({ c with timerActive := false }, [])
  | CEvent.message p => (c, (dispatchMessage p).map Effect.send)

/-- C1: each heartbeat tick is a two-branch step function on isAlive: when
the flag is false the tick cancels the timer and forcibly terminates the
transport; otherwise it clears the flag and sends a transport-level ping.
Receipt of a transport-level pong is the only event that sets isAlive back
to true. -/
theorem heartbeat_tick_step (c : Conn) :
    (c.isAlive = false →
      connStep c CEvent.tick =
        ({ c with timerActive := false, terminated := true }, [Effect.terminate])) ∧
    (c.isAlive = true →
      connStep c CEvent.tick = ({ c with isAlive := false }, [Effect.ping])) ∧
    (∀ e, c.isAlive = false → (connStep c e).1.isAlive = true → e = CEvent.pongRecv) := by
  refine ⟨?_, ?_, ?_⟩
  · intro h
    simp [connStep, h]
  · intro h
    simp [connStep, h]
  · intro e h he
    cases e <;> simp [connStep, h] at he ⊢

/-- Witness for C1 at a connection whose isAlive flag is false. -/
theorem heartbeat_tick_step_witness :
    connStep { isAlive := false, timerActive := true, terminated := false } CEvent.tick =
      ({ isAlive := false, timerActive := false, terminated := true }, [Effect.terminate]) :=
  (heartbeat_tick_step { isAlive := false, timerActive := true, terminated := false }).1 rfl

/-- C3: an inbound frame that parses as JSON and whose decoded type field
is the string "pong" causes the dispatcher to send exactly one frame, the
JSON encoding of the ack record, and to leave the connection state
unchanged. -/
theorem pong_gets_single_ack (c : Conn) (j : Json)
    (h : jsGetProp j "type" = Except.ok (some (Json.str "pong"))) :
    connStep c (CEvent.message (some j)) = (c, [Effect.send ackJson]) := by
  have hd : dispatchMessage (some j) = [ackJson] := by
    rw [dispatchMessage_some, h]
    rfl
  simp [connStep, hd]

/-- Witness for C3 on the concrete payload with a type field "pong". -/
theorem pong_gets_single_ack_witness :
    connStep connInit (CEvent.message (some (Json.obj [("type", Json.str "pong")]))) =
      (connInit, [Effect.send ackJson]) :=
  pong_gets_single_ack connInit (Json.obj [("type", Json.str "pong")]) rfl

/-- Modelled from the spec: the dispatch schema, a structured record with a
type field. A parsed payload violates the schema when it is not an object
or has no type field. This definition follows the specification wording and
is used only to state the counterexample for C4. -/
def specSchemaViolating (j : Json) : Bool :=
  match j with
  | Json.obj fs => (lookupLast fs "type").isNone
  | _ => true

/-- Counterexample for C4: the payload consisting of the single field foo
is valid JSON yet schema-violating, and the dispatcher sends no frame at
all for it, not the claimed single error frame. The catch branch of the
handler fires only when JSON.parse or the data.type access throws, which a
parseable object never does. -/
theorem schema_violating_gets_no_reply :
    specSchemaViolating (Json.obj [("foo", Json.num 1)]) = true ∧
    dispatchMessage (some (Json.obj [("foo", Json.num 1)])) = [] ∧
    dispatchMessage (some (Json.obj [("foo", Json.num 1)])) ≠ [errorJson] :=
  ⟨rfl, rfl, fun h => List.noConfusion h⟩

/-- C4 as amended: when the payload fails to parse, or parses to the JSON
value null (whose type access throws inside the try block), the handler
sends exactly one error frame; for every payload the handler leaves the
connection state unchanged and never terminates the connection. Parseable
payloads that merely violate the schema produce no frame. -/
theorem decode_failure_single_error (c : Conn) (p : Option Json) :
    ((p = none ∨ p = some Json.null) →
      connStep c (CEvent.message p) = (c, [Effect.send errorJson])) ∧
    (connStep c (CEvent.message p)).1 = c ∧
    Effect.terminate ∉ (connStep c (CEvent.message p)).2 := by
  refine ⟨?_, rfl, ?_⟩
  · rintro (rfl | rfl) <;> rfl
  · simp only [connStep, List.mem_map]
    rintro ⟨a, _, h⟩
    exact Effect.noConfusion h

/-- Witness for C4 as amended, at a payload JSON.parse rejects. -/
theorem decode_failure_single_error_witness :
    connStep connInit (CEvent.message none) = (connInit, [Effect.send errorJson]) :=
  (decode_failure_single_error connInit none).1 (Or.inl rfl)

/-- Counterexample for C10: the payload null is valid JSON with no type
field, yet the dispatcher answers it with one error frame rather than
staying silent: the data.type access on null throws a TypeError, which the
catch branch turns into the error reply. -/
theorem null_payload_gets_error_frame :
    dispatchMessage (some Json.null) = [errorJson] ∧
    dispatchMessage (some Json.null) ≠ [] :=
  ⟨rfl, fun h => List.noConfusion h⟩

/-- C10 as amended: for every parseable payload on which the type access
does not throw (every JSON value except null) and whose type field is not
the string "pong", the dispatcher sends no frame of any kind and leaves the
connection state, in particular the isAlive flag and the timer, unchanged. -/
theorem non_pong_json_is_silent (c : Conn) (j : Json) (v : Option Json)
    (h1 : jsGetProp j "type" = Except.ok v) (h2 : isPongType v = false) :
    connStep c (CEvent.message (some j)) = (c, []) := by
  have hd : dispatchMessage (some j) = [] := by
    rw [dispatchMessage_some, h1]
    simp [h2]
  simp [connStep, hd]

/-- Witness for C10 as amended, at the numeric payload 3. -/
theorem non_pong_json_is_silent_witness :
    connStep connInit (CEvent.message (some (Json.num 3))) = (connInit, []) :=
  non_pong_json_is_silent connInit (Json.num 3) none rfl rfl

/-- Run a connection through a list of events, keeping the resulting state. -/
def runConn (c : Conn) : List CEvent → Conn
  | [] => c
  | e :: es => runConn (connStep c e).1 es

/-- Number of events at which the heartbeat timer goes from armed to
cancelled over an event list. -/
def cancelCount (c : Conn) : List CEvent → Nat
  | [] => 0
  | e :: es =>
      (if c.timerActive && !(connStep c e).1.timerActive then 1 else 0) +
        cancelCount (connStep c e).1 es

theorem connStep_timer_mono (c : Conn) (e : CEvent)
    (h : (connStep c e).1.timerActive = true) : c.timerActive = true := by
  cases e with
  | tick =>
    cases hA : c.isAlive
    · simp [connStep, hA] at h
    · simpa [connStep, hA] using h
  | pongRecv => simpa [connStep] using h
  | closeEvt => simp [connStep] at h
  | errorEvt => simp [connStep] at h
  | message p => simpa [connStep] using h

theorem runConn_timer_mono (es : List CEvent) (c : Conn)
    (h : (runConn c es).timerActive = true) : c.timerActive = true := by
  induction es generalizing c with
  | nil => exact h
  | cons e es ih => exact connStep_timer_mono c e (ih _ h)

theorem runConn_timer_false (es : List CEvent) (c : Conn)
    (h : c.timerActive = false) : (runConn c es).timerActive = false := by
  cases hR : (runConn c es).timerActive
  · rfl
  · exact absurd (runConn_timer_mono es c hR) (by simp [h])

theorem cancelCount_eq (es : List CEvent) (c : Conn) :
    cancelCount c es =
      if c.timerActive && !(runConn c es).timerActive then 1 else 0 := by
  induction es generalizing c with
  | nil => cases hA : c.timerActive <;> simp [cancelCount, runConn, hA]
  | cons e es ih =>
    simp only [cancelCount, runConn]
    rw [ih]
    cases hA : c.timerActive
    · have hB : (connStep c e).1.timerActive = false := by
        cases hB : (connStep c e).1.timerActive
        · rfl
        · exact absurd (connStep_timer_mono c e hB) (by simp [hA])
      simp [hA, hB]
    · cases hB : (connStep c e).1.timerActive
      · have hR : (runConn (connStep c e).1 es).timerActive = false :=
          runConn_timer_false es _ hB
        simp [hA, hB, hR]
      · simp [hA, hB]

theorem closeEvt_clears (es : List CEvent) (c : Conn)
    (h : CEvent.closeEvt ∈ es ∨ CEvent.errorEvt ∈ es) :
    (runConn c es).timerActive = false := by
  induction es generalizing c with
  | nil => simp at h
  | cons e es ih =>
    rcases h with h | h
    · rcases List.mem_cons.mp h with rfl | h
      · exact runConn_timer_false es _ rfl
      · exact ih _ (Or.inl h)
    · rcases List.mem_cons.mp h with rfl | h
      · exact runConn_timer_false es _ rfl
      · exact ih _ (Or.inr h)

/-- C9: along every event history of a connection started by the connection
handler, the heartbeat timer is cancelled at most once; and whenever a close
event, an error event, or any other cancellation trigger (the timer ending
up disarmed, which covers forced termination by the supervisor and the
shutdown drain closing the socket) occurs, the cancellation happens exactly
once — in particular also when both a close and an error event are
delivered for the same connection. -/
theorem heartbeat_cancelled_once (es : List CEvent) :
    cancelCount connInit es ≤ 1 ∧
    ((CEvent.closeEvt ∈ es ∨ CEvent.errorEvt ∈ es ∨
        (runConn connInit es).timerActive = false) →
      cancelCount connInit es = 1) := by
  rw [cancelCount_eq]
  constructor
  · split <;> simp
  · intro h
    have hfin : (runConn connInit es).timerActive = false := by
      rcases h with h | h | h
      · exact closeEvt_clears es connInit (Or.inl h)
      · exact closeEvt_clears es connInit (Or.inr h)
      · exact h
    rw [hfin]
    simp [connInit]

/-- Witness for C9 on a history where the connection receives both a close
and an error event. -/
theorem heartbeat_cancelled_once_witness :
    cancelCount connInit [CEvent.closeEvt, CEvent.errorEvt] = 1 :=
  (heartbeat_cancelled_once [CEvent.closeEvt, CEvent.errorEvt]).2
    (Or.inl (List.mem_cons_self _ _))

/-- The heartbeat period of the interval timer on line 140, in
milliseconds. -/
def heartbeatPeriod : Nat := 30000

/-- Absolute time of the n-th interval tick: setInterval fires first one
full period after the connection handler armed it. -/
def tickTime (n : Nat) : Nat := (n + 1) * heartbeatPeriod

/-- State of a connection entering its n-th heartbeat tick, given which
pings the peer answers: ans i is true exactly when the peer delivers a
transport-level pong during the period following tick i. Each period is one
tick step followed, when answered, by the pong listener. -/
def hbState (ans : Nat → Bool) : Nat → Conn
  | 0 => connInit
  | n + 1 =>
      let afterTick := (connStep (hbState ans n) CEvent.tick).1
      if ans n then (connStep afterTick CEvent.pongRecv).1 else afterTick

/-- The supervisor forcibly terminates the connection at tick n exactly
when that is the first tick entered with the isAlive flag down. -/
def termTickAt (ans : Nat → Bool) (n : Nat) : Prop :=
  (hbState ans n).isAlive = false ∧ ∀ m, m < n → (hbState ans m).isAlive = true

theorem hbState_isAlive (ans : Nat → Bool) (n : Nat) :
    (hbState ans (n + 1)).isAlive = ans n := by
  show (hbState ans (n + 1)).isAlive = ans n
  unfold hbState
  cases hA : (hbState ans n).isAlive <;> cases hn : ans n <;>
    simp [connStep, hA, hn]

theorem hbState_terminated (ans : Nat → Bool) (h : ∀ i, ans i = true) (n : Nat) :
    (hbState ans n).terminated = false := by
  induction n with
  | zero => rfl
  | succ n ih =>
    have hA : (hbState ans n).isAlive = true := by
      cases n with
      | zero => rfl
      | succ m => rw [hbState_isAlive]; exact h m
    unfold hbState
    simp [connStep, hA, h n, ih]

/-- C2: under the 30 000 ms tick semantics, a connection whose peer answers
every transport-level probe within one period is never forcibly terminated
by the supervisor; and a connection that answers every probe up to tick k
and none afterwards is terminated at tick k + 2, which lies no less than
one and no more than two heartbeat periods after the arrival time of its
last pong. -/
theorem heartbeat_detection (ans ansS : Nat → Bool) (k tau : Nat)
    (h1 : ∀ i, ans i = true)
    (h2 : ∀ i, i ≤ k → ansS i = true)
    (h3 : ∀ i, k < i → ansS i = false)
    (h4 : tickTime k < tau) (h5 : tau < tickTime (k + 1)) :
    ((∀ n, (hbState ans n).terminated = false) ∧ (∀ n, ¬ termTickAt ans n)) ∧
    termTickAt ansS (k + 2) ∧
    heartbeatPeriod ≤ tickTime (k + 2) - tau ∧
    tickTime (k + 2) - tau ≤ 2 * heartbeatPeriod := by
  refine ⟨⟨hbState_terminated ans h1, ?_⟩, ⟨?_, ?_⟩, ?_, ?_⟩
  · intro n hterm
    have : (hbState ans n).isAlive = true := by
      cases n with
      | zero => rfl
      | succ m => rw [hbState_isAlive]; exact h1 m
    rw [hterm.1] at this
    exact Bool.noConfusion this
  · rw [hbState_isAlive]
    exact h3 (k + 1) (Nat.lt_succ_self k)
  · intro m hm
    cases m with
    | zero => rfl
    | succ i =>
      rw [hbState_isAlive]
      exact h2 i (by omega)
  · simp only [tickTime, heartbeatPeriod] at h4 h5 ⊢
    omega
  · simp only [tickTime, heartbeatPeriod] at h4 h5 ⊢
    omega

/-- Witness for C2: a peer that always answers, against a peer that answers
only the first probe, with the last pong arriving 45 000 ms in. -/
theorem heartbeat_detection_witness :
    ((∀ n, (hbState (fun _ => true) n).terminated = false) ∧
      (∀ n, ¬ termTickAt (fun _ => true) n)) ∧
    termTickAt (fun i => i == 0) (0 + 2) ∧
    heartbeatPeriod ≤ tickTime (0 + 2) - 45000 ∧
    tickTime (0 + 2) - 45000 ≤ 2 * heartbeatPeriod :=
  heartbeat_detection (fun _ => true) (fun i => i == 0) 0 45000
    (fun _ => rfl)
    (fun i hi => by cases Nat.le_zero.mp hi; rfl)
    (fun i hi => by
      cases i with
      | zero => omega
      | succ m => rfl)
    (by decide) (by decide)

/-- Observable actions of the shutdown orchestration, used to record the
order in which drain steps happen. -/
inductive Action where
  | stopUpgrades
  | broadcastClose
  | startTimeout
  | serverClose
  | exitAct (code : Nat)
deriving DecidableEq

/-- Process-level state for the shutdown orchestration of
src/server/index.ts lines 196 to 228: how many times wss.close and
setTimeout were invoked, how many wss.close callbacks and server.close
calls are outstanding, the earliest pending force-exit time, whether and
how the process exited, and the log of performed actions. -/
structure Proc where
  wssCloseCalls : Nat
  timeoutStarts : Nat
  pendingWssCbs : Nat
  serverCloseCalls : Nat
  pendingForce : Option Nat
  exited : Option (Nat × Nat)
  log : List Action
deriving DecidableEq

/-- Process state at server start: nothing closed, no timers, running. -/
def procInit : Proc :=
  { wssCloseCalls := 0, timeoutStarts := 0, pendingWssCbs := 0,
    serverCloseCalls := 0, pendingForce := none, exited := none, log := [] }

/-- Modelled from the spec: the connection-level listener close operation,
wss.close(callback) of the external ws dependency, whose body is not part
of this repository. Per the drain-entry description of the spec it stops
accepting new upgrades and instructs every live connection, via the
registry, to close; the callback is registered to run once the listener
reports all connections closed. -/
def wssClose (p : Proc) : Proc :=
  { p with wssCloseCalls := p.wssCloseCalls + 1,
           pendingWssCbs := p.pendingWssCbs + 1,
           log := p.log ++ [Action.stopUpgrades, Action.broadcastClose] }

/-- Earliest pending force-exit time after scheduling a new one: only the
earliest scheduled setTimeout callback can fire in a live process. -/
def earliestForce (old : Option Nat) (t : Nat) : Option Nat :=
  match old with
  | none => some t
  | some u => some (min u t)

/-- The 10 000 ms bound of the force-close timer on line 213. -/
def shutdownTimeout : Nat := 10000

/-- The shutdown function of src/server/index.ts lines 196 to 214, run at
time t: call wss.close with the callback chain that closes the HTTP server
and exits with status 0, then start the 10 000 ms force-exit timer that
exits with status 1. -/
def shutdownFn (t : Nat) (p : Proc) : Proc :=
  let p1 := wssClose p
  { p1 with timeoutStarts := p1.timeoutStarts + 1,
            pendingForce := earliestForce p1.pendingForce (t + shutdownTimeout),
            log := p1.log ++ [Action.startTimeout] }

/-- Events delivered to the process: the two termination signals, an
uncaught exception, an unhandled promise rejection, the listener reporting
all connections closed (firing the registered wss.close callbacks), the
HTTP server close completing, and a scheduled force-exit timer firing. -/
inductive PEvent where
  | sigterm
  | sigint
  | uncaughtExc
  | unhandledRej
  | wssClosed
  | serverClosed
  | forceTimeout
deriving DecidableEq

/-- One step of the process-level handlers registered on lines 217 to 228,
for a timed event. A dead process ignores every event. SIGTERM and SIGINT
are both handled by the shutdown function directly, with no draining
guard; the uncaughtException handler also calls shutdown; the
unhandledRejection handler only logs. When the listener reports all
connections closed, each registered wss.close callback calls server.close;
when the HTTP server close completes, the registered callback exits with
status 0; a force timer that is the earliest pending one exits with
status 1. -/
def procStep (p : Proc) (te : Nat × PEvent) : Proc :=
  if p.exited.isSome then p else
  match te.2 with
  | PEvent.sigterm => shutdownFn te.1 p
  | PEvent.sigint => shutdownFn te.1 p
  | PEvent.uncaughtExc => shutdownFn te.1 p
  | PEvent.unhandledRej => p
  | PEvent.wssClosed =>
      { p with serverCloseCalls := p.serverCloseCalls + p.pendingWssCbs,
               pendingWssCbs := 0,
               log := p.log ++ List.replicate p.pendingWssCbs Action.serverClose }
  | PEvent.serverClosed =>
      if 0 < p.serverCloseCalls then
        { p with exited := some (te.1, 0), log := p.log ++ [Action.exitAct 0] }
      else p
  | PEvent.forceTimeout =>
      if p.pendingForce = some te.1 then
        { p with exited := some (te.1, 1), log := p.log ++ [Action.exitAct 1] }
      else p

/-- Run the process through a list of timed events. -/
def procRun (p : Proc) : List (Nat × PEvent) → Proc
  | [] => p
  | te :: rest => procRun (procStep p te) rest

/-- C5 evaluation, recording the code bug: two termination signals in
immediate succession re-run the drain entry actions — the second signal
issues a second wss.close call and starts a second 10 000 ms force-exit
timer, because the shutdown function is registered as the signal handler
with no draining guard. The claimed single drain sequence does not hold. -/
theorem double_signal_reenters_drain :
    (procRun procInit [(0, PEvent.sigterm), (1, PEvent.sigterm)]).wssCloseCalls = 2 ∧
    (procRun procInit [(0, PEvent.sigterm), (1, PEvent.sigterm)]).timeoutStarts = 2 :=
  ⟨rfl, rfl⟩

/-- C7: triggering the drain performs, in order, stop-upgrades, the
broadcast of close to every registered connection, and the start of the
bounded timeout; and on the success path — the listener reports all
connections closed, then the HTTP server close completes — the host HTTP
listener is closed and the process exits with status 0. -/
theorem drain_entry_order_and_success (t0 t1 t2 : Nat) :
    (procRun procInit [(t0, PEvent.sigterm), (t1, PEvent.wssClosed),
        (t2, PEvent.serverClosed)]).log =
      [Action.stopUpgrades, Action.broadcastClose, Action.startTimeout,
       Action.serverClose, Action.exitAct 0] ∧
    (procRun procInit [(t0, PEvent.sigterm), (t1, PEvent.wssClosed),
        (t2, PEvent.serverClosed)]).exited = some (t2, 0) :=
  ⟨rfl, rfl⟩

/-- C8 counterexample: an unhandled promise rejection does not enter the
drain sequence — its handler only logs, so no listener close happens and
no bounded timeout is started. -/
theorem unhandled_rejection_no_drain :
    (procRun procInit [(0, PEvent.unhandledRej)]).wssCloseCalls = 0 ∧
    (procRun procInit [(0, PEvent.unhandledRej)]).timeoutStarts = 0 :=
  ⟨rfl, rfl⟩

/-- C8 as amended: an uncaught exception forces entry into exactly the same
drain sequence as a termination signal, while an unhandled promise
rejection is only logged and leaves the process state unchanged. -/
theorem fatal_fault_drain (p : Proc) (t : Nat) :
    procStep p (t, PEvent.uncaughtExc) = procStep p (t, PEvent.sigterm) ∧
    procStep p (t, PEvent.unhandledRej) = p := by
  constructor
  · rfl
  · simp only [procStep]
    split <;> rfl

theorem procRun_append (l1 l2 : List (Nat × PEvent)) (p : Proc) :
    procRun p (l1 ++ l2) = procRun (procRun p l1) l2 := by
  induction l1 generalizing p with
  | nil => rfl
  | cons te l1 ih => exact ih (procStep p te)

theorem procRun_exited (l : List (Nat × PEvent)) (p : Proc) (x : Nat × Nat)
    (h : p.exited = some x) : (procRun p l).exited = some x := by
  induction l generalizing p with
  | nil => exact h
  | cons te l ih =>
    have hstep : procStep p te = p := by
      simp [procStep, h]
    rw [procRun, hstep]
    exact ih p h

/-- Invariant holding from the first shutdown trigger on, along traces with
no further connection-closed report and no event earlier than the trigger. -/
def drainInv (t0 : Nat) (p : Proc) : Prop :=
  p.pendingForce = some (t0 + shutdownTimeout) ∧
  p.serverCloseCalls = 0 ∧
  (p.exited = none ∨ p.exited = some (t0 + shutdownTimeout, 1))

theorem drainInv_step (t0 : Nat) (p : Proc) (te : Nat × PEvent)
    (hNoClose : te.2 ≠ PEvent.wssClosed) (hTime : t0 ≤ te.1)
    (hInv : drainInv t0 p) : drainInv t0 (procStep p te) := by
  obtain ⟨hF, hS, hE⟩ := hInv
  by_cases hex : p.exited.isSome
  · simpa [procStep, hex] using ⟨hF, hS, hE⟩
  · obtain ⟨t, e⟩ := te
    cases e with
    | sigterm =>
      refine ⟨?_, ?_, ?_⟩ <;>
        simp [procStep, hex, shutdownFn, wssClose, earliestForce, hF, hS, hE,
          Nat.min_eq_left (by omega : t0 + shutdownTimeout ≤ t + shutdownTimeout)]
    | sigint =>
      refine ⟨?_, ?_, ?_⟩ <;>
        simp [procStep, hex, shutdownFn, wssClose, earliestForce, hF, hS, hE,
          Nat.min_eq_left (by omega : t0 + shutdownTimeout ≤ t + shutdownTimeout)]
    | uncaughtExc =>
      refine ⟨?_, ?_, ?_⟩ <;>
        simp [procStep, hex, shutdownFn, wssClose, earliestForce, hF, hS, hE,
          Nat.min_eq_left (by omega : t0 + shutdownTimeout ≤ t + shutdownTimeout)]
    | unhandledRej => simpa [procStep, hex] using ⟨hF, hS, hE⟩
    | wssClosed => exact absurd rfl hNoClose
    | serverClosed => simpa [procStep, hex, hS] using ⟨hF, hS, hE⟩
    | forceTimeout =>
      by_cases hfire : p.pendingForce = some t
      · have ht : t = t0 + shutdownTimeout := by
          rw [hF] at hfire
          exact (Option.some.injEq _ _ ▸ hfire).symm
        refine ⟨?_, ?_, ?_⟩ <;> simp [procStep, hex, hfire, hF, hS, ht]
      · simpa [procStep, hex, hfire] using ⟨hF, hS, hE⟩

theorem drainInv_run (t0 : Nat) (l : List (Nat × PEvent)) (p : Proc)
    (hNoClose : ∀ te ∈ l, te.2 ≠ PEvent.wssClosed)
    (hTime : ∀ te ∈ l, t0 ≤ te.1)
    (hInv : drainInv t0 p) : drainInv t0 (procRun p l) := by
  induction l generalizing p with
  | nil => exact hInv
  | cons te l ih =>
    exact ih (procStep p te)
      (fun x hx => hNoClose x (List.mem_cons_of_mem te hx))
      (fun x hx => hTime x (List.mem_cons_of_mem te hx))
      (drainInv_step t0 p te (hNoClose te (List.mem_cons_self te l))
        (hTime te (List.mem_cons_self te l)) hInv)

theorem drainInv_force (t0 : Nat) (p : Proc) (hInv : drainInv t0 p) :
    (procStep p (t0 + shutdownTimeout, PEvent.forceTimeout)).exited =
      some (t0 + shutdownTimeout, 1) := by
  obtain ⟨hF, hS, hE⟩ := hInv
  rcases hE with hE | hE
  · simp [procStep, hE, hF]
  · simp [procStep, hE]

/-- C6: once a termination signal starts the drain at time t0 and the
connections never close voluntarily (the listener never reports all
connections closed), the process does not exit successfully but the
force-exit timer fires at t0 plus the 10 000 ms bound and the process exits
with failure status 1 — the shutdown never hangs past the bounded timeout.
The trace hypotheses say that the remaining events are not
connection-closed reports, happen no earlier than the trigger, and include
the scheduled force-timer firing, which the runtime guarantees for a live
process. -/
theorem bounded_shutdown (t0 : Nat) (rest : List (Nat × PEvent))
    (hNoClose : ∀ te ∈ rest, te.2 ≠ PEvent.wssClosed)
    (hTime : ∀ te ∈ rest, t0 ≤ te.1)
    (hForce : (t0 + shutdownTimeout, PEvent.forceTimeout) ∈ rest) :
    (procRun procInit ((t0, PEvent.sigterm) :: rest)).exited =
      some (t0 + shutdownTimeout, 1) := by
  obtain ⟨l1, l2, rfl⟩ := List.append_of_mem hForce
  have hInv0 : drainInv t0 (procStep procInit (t0, PEvent.sigterm)) := by
    refine ⟨?_, ?_, Or.inl ?_⟩ <;>
      simp [procStep, procInit, shutdownFn, wssClose, earliestForce]
  have hInv1 : drainInv t0 (procRun (procStep procInit (t0, PEvent.sigterm)) l1) :=
    drainInv_run t0 l1 _
      (fun x hx => hNoClose x (List.mem_append_left _ hx))
      (fun x hx => hTime x (List.mem_append_left _ hx)) hInv0
  rw [procRun, procRun_append]
  rw [show procRun (procRun (procStep procInit (t0, PEvent.sigterm)) l1)
        ((t0 + shutdownTimeout, PEvent.forceTimeout) :: l2) =
      procRun (procStep (procRun (procStep procInit (t0, PEvent.sigterm)) l1)
        (t0 + shutdownTimeout, PEvent.forceTimeout)) l2 from rfl]
  exact procRun_exited l2 _ _ (drainInv_force t0 _ hInv1)

/-- Witness for C6: a single SIGTERM at time 0 with no connection ever
closing; the force timer fires at 10 000 ms and the process exits 1. -/
theorem bounded_shutdown_witness :
    (procRun procInit [(0, PEvent.sigterm),
        (shutdownTimeout, PEvent.forceTimeout)]).exited = some (shutdownTimeout, 1) :=
  bounded_shutdown 0 [(shutdownTimeout, PEvent.forceTimeout)]
    (by intro te hte; rw [List.mem_singleton] at hte; rw [hte]; decide)
    (by intro te hte; exact Nat.zero_le _)
    (by rw [Nat.zero_add]; exact List.mem_singleton_self _)

end PharmacyGateway
